import Mathlib

/-!
Shallow embedding of the CAN tracer page of OpenVehicleDiag
(`src/app_rust/src/pages/can_tracer.rs`).

Machine integers (`u32`, `u8`, `u128`) are modelled as `Nat` with explicit
bounds where the code checks them; the Rust parse functions fail on overflow,
so the parsed values never wrap.  `Instant` timestamps are modelled as `Nat`
milliseconds: `elapsed` becomes truncated subtraction `now - last`, faithful
because Rust `Instant` is monotone.  The `f32` fields (`act_map`, `max_y`)
only ever hold exact small integer counts (a tick reads at most 1000 frames
plus one transmitted frame, far below 2^24, the bound for exact `f32`
integers), so they are modelled as `Nat`.  The `HashMap<u32, CanFrame>` is
modelled as an association list whose insert overwrites an existing key.
-/

set_option maxRecDepth 100000

/-- `CanFrame` of the `ecu_diagnostics` crate: `CanFrame::new(id, data, ext)`,
with `get_address` and `get_data` accessors. -/
structure CanFrame where
  address : Nat
  data : List Nat
  ext : Bool
deriving Repr, DecidableEq

/-- `char::to_digit(radix)`: digits `0-9`, then lowercase and uppercase
letters, valid only when below the radix. -/
def digitVal (radix : Nat) (c : Char) : Option Nat :=
  let v : Option Nat :=
    if 48 ≤ c.toNat ∧ c.toNat ≤ 57 then some (c.toNat - 48)
    else if 97 ≤ c.toNat ∧ c.toNat ≤ 122 then some (c.toNat - 87)
    else if 65 ≤ c.toNat ∧ c.toNat ≤ 90 then some (c.toNat - 55)
    else none
  match v with
  | some d => if d < radix then some d else none
  | none => none

/-- Digit-accumulation loop of Rust `from_str_radix` for a non-negative
number: `acc = acc * radix + d` with a checked-overflow bound (`bound` is
one past the integer type's maximum, e.g. `2^32` for `u32`). -/
def parseDigitsPos (bound radix : Nat) : List Char → Nat → Option Nat
  | [], acc => some acc
  | c :: cs, acc =>
    match digitVal radix c with
    | none => none
    | some d =>
      if acc * radix + d < bound then parseDigitsPos bound radix cs (acc * radix + d)
      else none

/-- Digit loop of Rust `from_str_radix` after a leading `-` on an unsigned
type: `0 - d` underflows for any non-zero digit, so only strings of `0`
digits parse (to zero). -/
def parseDigitsNeg (radix : Nat) : List Char → Option Nat
  | [] => some 0
  | c :: cs =>
    match digitVal radix c with
    | none => none
    | some d => if d = 0 then parseDigitsNeg radix cs else none

/-- Rust `uN::from_str_radix(s, radix)`: optional leading `+`/`-` sign, at
least one digit, checked overflow against `bound`. -/
def from_str_radix (bound radix : Nat) (s : String) : Option Nat :=
  match s.toList with
  | [] => none
  | c :: cs =>
    if c = '+' then (if cs.isEmpty then none else parseDigitsPos bound radix cs 0)
    else if c = '-' then (if cs.isEmpty then none else parseDigitsNeg radix cs)
    else parseDigitsPos bound radix (c :: cs) 0

/-- Uppercase hexadecimal digit character, as produced by Rust `{:X}`. -/
def hexDigitChar (d : Nat) : Char :=
  if d < 10 then Char.ofNat (48 + d) else Char.ofNat (55 + d)

/-- Hexadecimal digit list of `n`, most significant first (`['0']` for 0),
as produced by Rust `{:X}`; `fuel` bounds the recursion depth and any
`fuel > n` is enough. -/
def hexCharsAux : Nat → Nat → List Char
  | 0, _ => []
  | fuel + 1, n =>
    if n < 16 then [hexDigitChar n]
    else hexCharsAux fuel (n / 16) ++ [hexDigitChar (n % 16)]

/-- Hexadecimal digit list of `n`, most significant first. -/
def hexChars (n : Nat) : List Char :=
  hexCharsAux (n + 1) n

/-- Rust `format!("{:04X}", n)`: uppercase hex, zero-padded to width 4. -/
def formatHex4 (n : Nat) : String :=
  let ds := hexChars n
  String.mk (List.replicate (4 - ds.length) '0' ++ ds)

/-- Rust `format!("{:08b}", b)` for a byte: 8 binary digits, zero padded. -/
def bin8 (n : Nat) : String :=
  String.mk ((List.range 8).map (fun k => if n / 2 ^ (7 - k) % 2 = 1 then '1' else '0'))

/-- Rust `str::split(" ")` on a character list: the chunks between the
single-space separators, keeping empty chunks (so `""` yields `[""]`). -/
def splitSpaceChars : List Char → List (List Char)
  | [] => [[]]
  | c :: cs =>
    if c = ' ' then [] :: splitSpaceChars cs
    else
      match splitSpaceChars cs with
      | [] => [[c]]
      | g :: gs => (c :: g) :: gs

/-- Rust `str::split(" ")`. -/
def splitSpace (s : String) : List String :=
  (splitSpaceChars s.toList).map (fun l => String.mk l)

/-- Lines 150-158: split the data string on single spaces and parse each
chunk as a hex `u8`; any failure clears the whole result (`bytes_maybe =
Vec::new(); break`). -/
def parseHexBytes (s : String) : List Nat :=
  match (splitSpace s).mapM (fun c => from_str_radix 256 16 c) with
  | some l => l
  | none => []

/-- Lines 111-120 (and 137-141, 175-179): a text field updates its numeric
value only when the string is non-empty and parses; otherwise the previous
value is kept. -/
def applyField (bound radix : Nat) (str : String) (old : Nat) : Nat :=
  if str.isEmpty then old
  else
    match from_str_radix bound radix str with
    | some v => v
    | none => old

/-- Line 201: `v.retain(|f| (f.get_address() & self.mask) == self.filt)`. -/
def passesFilter (mask filt : Nat) (f : CanFrame) : Bool :=
  Nat.land f.address mask == filt

/-- `HashMap::insert` keyed by address: overwrite an existing entry, else
append. -/
def mapInsert (m : List (Nat × CanFrame)) (k : Nat) (v : CanFrame) : List (Nat × CanFrame) :=
  if m.any (fun p => p.1 == k) then m.map (fun p => if p.1 == k then (k, v) else p)
  else m ++ [(k, v)]

/-- `CAN_BAUD_RATES` (lines 11-27). -/
def CAN_BAUD_RATES : List Nat :=
  [5000, 10000, 20000, 31250, 33333, 40000, 50000, 80000, 83333,
   100000, 125000, 200000, 250000, 500000, 1000000]

/-- The mutable state of `CanTracerPage` (lines 29-52).  `channel : Bool`
stands for `Option<Box<dyn CanChannel>>` being `Some`; the channel's
behaviour on a tick is supplied by `TickInput`. -/
structure CanTracerPage where
  channel : Bool
  selected_baud : Nat
  error_maybe : Option String
  can_map : List (Nat × CanFrame)
  act_map : List Nat
  events_draw : Nat
  mask : Nat
  mask_str : String
  filt_str : String
  filt : Nat
  max_y : Nat
  sending_frame : Bool
  last_tx_time : Nat
  tx_interval : Nat
  tx_interval_str : String
  tx_bin_str : String
  tx_id_str : String
  tx_data_str : String
  tx_can_data : Nat × List Nat
deriving Repr, DecidableEq

/-- `CanTracerPage::new` (lines 55-80); `now` is the creation instant. -/
def CanTracerPage.new (now : Nat) : CanTracerPage where
  channel := false
  selected_baud := 500000
  error_maybe := none
  can_map := []
  act_map := List.replicate 100 0
  events_draw := 0
  mask := 0
  mask_str := "0000"
  filt := 0
  filt_str := "0000"
  max_y := 10
  sending_frame := false
  last_tx_time := now
  tx_interval := 50
  tx_interval_str := "50"
  tx_id_str := "0001"
  tx_data_str := "01 02 03 04 05 06 07 08"
  tx_bin_str := ""
  tx_can_data := (1, [0, 0, 0, 0, 0, 0, 0, 0])

/-- One tick's external inputs: the text boxes' contents after the user's
edits, button/checkbox states, the current instant, and the channel's
behaviour for this tick's `write_packets` / `read_packets` calls. -/
structure TickInput where
  mask_str_in : String
  filt_str_in : String
  reset_clicked : Bool
  tx_id_in : String
  tx_data_in : String
  tx_interval_in : String
  sending_in : Bool
  disconnect_clicked : Bool
  row_clicked : Option Nat
  now : Nat
  write_ok : Bool
  read_result : Except String (List CanFrame)
  baud_sel : Option Nat
  connect_clicked : Bool
  connect_ok : Bool
  connect_err : String
deriving Repr

/-- Observable channel interaction of one tick: the frame handed to
`write_packets` (if called) and the reported `read_packets` error (if any). -/
structure TickOutput where
  write_call : Option CanFrame
  read_error : Option String
deriving Repr, DecidableEq

/-- Lines 93-109: copy the edited mask/filter strings back into the page
and apply the "Reset CAN filter" button. -/
def applyFilterTexts (s : CanTracerPage) (i : TickInput) : CanTracerPage :=
  let s := { s with filt_str := i.filt_str_in, mask_str := i.mask_str_in }
  if i.reset_clicked then { s with filt_str := "0000", mask_str := "0000" } else s

/-- Lines 111-120: re-parse the mask and filter values permissively. -/
def parseFilterFields (s : CanTracerPage) : CanTracerPage :=
  let s := { s with mask := applyField (2 ^ 32) 16 s.mask_str s.mask }
  { s with filt := applyField (2 ^ 32) 16 s.filt_str s.filt }

/-- Lines 122-141: copy the edited tx id/data strings back and re-parse the
tx CAN id permissively. -/
def applyTxTexts (s : CanTracerPage) (i : TickInput) : CanTracerPage :=
  let s := { s with tx_id_str := i.tx_id_in, tx_data_str := i.tx_data_in }
  { s with tx_can_data := (applyField (2 ^ 32) 16 s.tx_id_str s.tx_can_data.1, s.tx_can_data.2) }

/-- Lines 150-171: parse the tx data bytes; an empty or oversized parse only
sets the diagnostic string and leaves `tx_can_data` unchanged. -/
def parseTxBytes (s : CanTracerPage) : CanTracerPage :=
  let bytes_maybe := parseHexBytes s.tx_data_str
  if bytes_maybe.isEmpty then { s with tx_bin_str := "INVALID DATA" }
  else if 8 < bytes_maybe.length then { s with tx_bin_str := "DATA TOO BIG (Max 8 bytes)" }
  else { s with tx_can_data := (s.tx_can_data.1, bytes_maybe),
                tx_bin_str := String.join (bytes_maybe.map (fun b => bin8 b ++ " ")) }

/-- Lines 173-179: copy the tx interval string and the Send checkbox back
and re-parse the interval permissively (radix 10). -/
def applyTxInterval (s : CanTracerPage) (i : TickInput) : CanTracerPage :=
  let s := { s with tx_interval_str := i.tx_interval_in, sending_frame := i.sending_in }
  { s with tx_interval := applyField (2 ^ 32) 10 s.tx_interval_str s.tx_interval }

/-- Lines 93-179: copy the edited strings back into the page, apply the
reset button, and re-parse mask, filter, tx id, tx data bytes and tx
interval, each permissively. -/
def updateInputs (s : CanTracerPage) (i : TickInput) : CanTracerPage :=
  applyTxInterval (parseTxBytes (applyTxTexts (parseFilterFields (applyFilterTexts s i)) i)) i

/-- Lines 180-192: if sending is enabled and strictly more than
`tx_interval` ms elapsed since `last_tx_time`, build the frame, call
`write_packets`, push the frame into this tick's `frames` only on success,
and set `last_tx_time` to now in either case.  Returns the new state, the
tick's `frames` vector so far, and the `write_packets` call (if made). -/
def transmitStep (s : CanTracerPage) (i : TickInput) :
    CanTracerPage × List CanFrame × Option CanFrame :=
  if s.sending_frame then
    if s.tx_interval < i.now - s.last_tx_time then
      let f : CanFrame := ⟨s.tx_can_data.1, s.tx_can_data.2, false⟩
      ({ s with last_tx_time := i.now }, (if i.write_ok then [f] else []), some f)
    else (s, [], none)
  else (s, [], none)

/-- Lines 199-208: the receive step.  On `Ok(v)` retain the frames passing
the mask/filter test; on `Err(e)` report the error and contribute no
frames. -/
def retainInbound (mask filt : Nat) (r : Except String (List CanFrame)) :
    List CanFrame × Option String :=
  match r with
  | .ok v => (v.filter (passesFilter mask filt), none)
  | .error e => ([], some e)

/-- Lines 225-226: clicking a displayed row sets the mask string to "FFFF"
and the filter string to the row's address formatted `{:04X}`. -/
def selectRow (s : CanTracerPage) (a : Nat) : CanTracerPage :=
  { s with mask_str := "FFFF", filt_str := formatHex4 a }

/-- Lines 197-248 (the non-disconnect branch): read and filter inbound
frames, fold the tick's frames into `can_map`, grow `max_y` and
`events_draw`, push the count onto `act_map` (rotate right, overwrite the
head), and apply a row click on the displayed (filter-passing) rows. -/
def receiveFold (s : CanTracerPage) (txFrames : List CanFrame) (i : TickInput) :
    CanTracerPage × Option String :=
  let inb := retainInbound s.mask s.filt i.read_result
  let frames := txFrames ++ inb.1
  let num := frames.length
  let s := { s with can_map := frames.foldl (fun m (f : CanFrame) => mapInsert m f.address f) s.can_map }
  let s := if s.max_y < num then { s with max_y := num } else s
  let s := if s.events_draw < 100 then { s with events_draw := s.events_draw + 1 } else s
  let s := { s with act_map := num :: s.act_map.take 99 }
  let s :=
    match i.row_clicked with
    | none => s
    | some a =>
      if s.can_map.any (fun p => passesFilter s.mask s.filt p.2 && p.2.address == a)
      then selectRow s a else s
  (s, inb.2)

/-- `make_ui` (lines 91-272): one external tick.  Connected: update inputs,
maybe transmit, then either disconnect (drop the channel, clear `can_map`)
or receive and fold.  Disconnected: baud selection and the Connect button. -/
def make_ui (s : CanTracerPage) (i : TickInput) : CanTracerPage × TickOutput :=
  if s.channel then
    let s1 := updateInputs s i
    let t := transmitStep s1 i
    if i.disconnect_clicked then
      ({ t.1 with channel := false, can_map := [] }, ⟨t.2.2, none⟩)
    else
      let r := receiveFold t.1 t.2.1 i
      (r.1, ⟨t.2.2, r.2⟩)
  else
    let s :=
      match i.baud_sel with
      | some b => if b ∈ CAN_BAUD_RATES then { s with selected_baud := b } else s
      | none => s
    if i.connect_clicked then
      let s := { s with error_maybe := none }
      if i.connect_ok then ({ s with channel := true }, ⟨none, none⟩)
      else ({ s with error_maybe := some ("Could not open CAN channel!: " ++ i.connect_err) },
            ⟨none, none⟩)
    else (s, ⟨none, none⟩)

/-! ### Concrete states and tick inputs used in counterexamples and witnesses -/

/-- A neutral tick input: text boxes hold the page's initial strings, no
buttons pressed, the channel returns no frames. -/
def idleInput : TickInput where
  mask_str_in := "0000"
  filt_str_in := "0000"
  reset_clicked := false
  tx_id_in := "0001"
  tx_data_in := "01 02 03 04 05 06 07 08"
  tx_interval_in := "50"
  sending_in := false
  disconnect_clicked := false
  row_clicked := none
  now := 0
  write_ok := true
  read_result := .ok []
  baud_sel := none
  connect_clicked := false
  connect_ok := false
  connect_err := ""

/-- Connected page with mask/filter 1 (frames with odd addresses pass). -/
def c2S : CanTracerPage :=
  { CanTracerPage.new 0 with channel := true, mask := 1, filt := 1,
                             mask_str := "1", filt_str := "1" }

/-- One frame with address 0 arrives; it fails the mask=1/filter=1 test. -/
def c2I : TickInput :=
  { idleInput with mask_str_in := "1", filt_str_in := "1",
                   read_result := .ok [⟨0, [1], false⟩] }

/-- Connected page whose frame table already shows address 5. -/
def c3S : CanTracerPage :=
  { CanTracerPage.new 0 with channel := true, can_map := [(5, ⟨5, [1], false⟩)] }

/-- The user clicks the row of address 5. -/
def c3I1 : TickInput := { idleInput with row_clicked := some 5 }

/-- The next tick feeds the select-row strings back unedited. -/
def c3I2 : TickInput := { idleInput with mask_str_in := "FFFF", filt_str_in := "0005" }

/-- Connected page with non-empty frame table, a non-zero newest activity
count and a partially filled activity buffer. -/
def c4S : CanTracerPage :=
  { CanTracerPage.new 0 with channel := true, can_map := [(5, ⟨5, [1], false⟩)],
                             act_map := 3 :: List.replicate 99 0, events_draw := 7, max_y := 12 }

/-- The user clicks Disconnect. -/
def c4I : TickInput := { idleInput with disconnect_clicked := true }

/-- Connected page whose running maximum has grown to 42. -/
def c5S : CanTracerPage := { CanTracerPage.new 0 with channel := true, max_y := 42 }

/-- Disconnect tick. -/
def c5I1 : TickInput := { idleInput with disconnect_clicked := true }

/-- Reconnect tick: the Connect button is clicked and the channel opens. -/
def c5I2 : TickInput := { idleInput with connect_clicked := true, connect_ok := true }

/-- Connected page; transmission was last performed at time 0. -/
def c6S : CanTracerPage := { CanTracerPage.new 0 with channel := true }

/-- Tick at time 50 with sending enabled: exactly `tx_interval` (50 ms) has
elapsed since `last_tx_time`. -/
def c6I : TickInput := { idleInput with sending_in := true, now := 50, tx_data_in := "01 02" }

/-- Tick whose read fails. -/
def c9I : TickInput := { idleInput with read_result := .error "read timeout" }

/-! ### Projection lemmas for the step functions -/

theorem applyFilterTexts_untouched (s : CanTracerPage) (i : TickInput) :
    (applyFilterTexts s i).act_map = s.act_map
    ∧ (applyFilterTexts s i).events_draw = s.events_draw
    ∧ (applyFilterTexts s i).can_map = s.can_map
    ∧ (applyFilterTexts s i).max_y = s.max_y
    ∧ (applyFilterTexts s i).channel = s.channel
    ∧ (applyFilterTexts s i).last_tx_time = s.last_tx_time
    ∧ (applyFilterTexts s i).sending_frame = s.sending_frame
    ∧ (applyFilterTexts s i).mask = s.mask
    ∧ (applyFilterTexts s i).filt = s.filt
    ∧ (applyFilterTexts s i).tx_can_data = s.tx_can_data
    ∧ (applyFilterTexts s i).tx_data_str = s.tx_data_str
    ∧ (applyFilterTexts s i).tx_interval = s.tx_interval := by
  simp [applyFilterTexts, apply_ite]

theorem parseFilterFields_untouched (s : CanTracerPage) :
    (parseFilterFields s).act_map = s.act_map
    ∧ (parseFilterFields s).events_draw = s.events_draw
    ∧ (parseFilterFields s).can_map = s.can_map
    ∧ (parseFilterFields s).max_y = s.max_y
    ∧ (parseFilterFields s).channel = s.channel
    ∧ (parseFilterFields s).last_tx_time = s.last_tx_time
    ∧ (parseFilterFields s).sending_frame = s.sending_frame
    ∧ (parseFilterFields s).tx_can_data = s.tx_can_data
    ∧ (parseFilterFields s).tx_data_str = s.tx_data_str
    ∧ (parseFilterFields s).tx_interval = s.tx_interval := by
  simp [parseFilterFields]

theorem parseFilterFields_mask (s : CanTracerPage) :
    (parseFilterFields s).mask = applyField (2 ^ 32) 16 s.mask_str s.mask
    ∧ (parseFilterFields s).filt = applyField (2 ^ 32) 16 s.filt_str s.filt := by
  simp [parseFilterFields]

theorem applyTxTexts_untouched (s : CanTracerPage) (i : TickInput) :
    (applyTxTexts s i).act_map = s.act_map
    ∧ (applyTxTexts s i).events_draw = s.events_draw
    ∧ (applyTxTexts s i).can_map = s.can_map
    ∧ (applyTxTexts s i).max_y = s.max_y
    ∧ (applyTxTexts s i).channel = s.channel
    ∧ (applyTxTexts s i).last_tx_time = s.last_tx_time
    ∧ (applyTxTexts s i).sending_frame = s.sending_frame
    ∧ (applyTxTexts s i).mask = s.mask
    ∧ (applyTxTexts s i).filt = s.filt
    ∧ (applyTxTexts s i).tx_can_data.2 = s.tx_can_data.2
    ∧ (applyTxTexts s i).tx_data_str = i.tx_data_in
    ∧ (applyTxTexts s i).tx_interval = s.tx_interval := by
  simp [applyTxTexts]

theorem parseTxBytes_untouched (s : CanTracerPage) :
    (parseTxBytes s).act_map = s.act_map
    ∧ (parseTxBytes s).events_draw = s.events_draw
    ∧ (parseTxBytes s).can_map = s.can_map
    ∧ (parseTxBytes s).max_y = s.max_y
    ∧ (parseTxBytes s).channel = s.channel
    ∧ (parseTxBytes s).last_tx_time = s.last_tx_time
    ∧ (parseTxBytes s).sending_frame = s.sending_frame
    ∧ (parseTxBytes s).mask = s.mask
    ∧ (parseTxBytes s).filt = s.filt
    ∧ (parseTxBytes s).tx_interval = s.tx_interval := by
  unfold parseTxBytes
  dsimp only
  split
  · simp
  · split <;> simp

theorem applyTxInterval_untouched (s : CanTracerPage) (i : TickInput) :
    (applyTxInterval s i).act_map = s.act_map
    ∧ (applyTxInterval s i).events_draw = s.events_draw
    ∧ (applyTxInterval s i).can_map = s.can_map
    ∧ (applyTxInterval s i).max_y = s.max_y
    ∧ (applyTxInterval s i).channel = s.channel
    ∧ (applyTxInterval s i).last_tx_time = s.last_tx_time
    ∧ (applyTxInterval s i).sending_frame = i.sending_in
    ∧ (applyTxInterval s i).mask = s.mask
    ∧ (applyTxInterval s i).filt = s.filt
    ∧ (applyTxInterval s i).tx_can_data = s.tx_can_data := by
  simp [applyTxInterval]

theorem applyFilterTexts_strs (s : CanTracerPage) (i : TickInput) :
    (applyFilterTexts s i).mask_str = (if i.reset_clicked then "0000" else i.mask_str_in)
    ∧ (applyFilterTexts s i).filt_str = (if i.reset_clicked then "0000" else i.filt_str_in) := by
  unfold applyFilterTexts
  dsimp only
  split <;> simp_all

theorem updateInputs_untouched (s : CanTracerPage) (i : TickInput) :
    (updateInputs s i).act_map = s.act_map
    ∧ (updateInputs s i).events_draw = s.events_draw
    ∧ (updateInputs s i).can_map = s.can_map
    ∧ (updateInputs s i).max_y = s.max_y
    ∧ (updateInputs s i).channel = s.channel
    ∧ (updateInputs s i).last_tx_time = s.last_tx_time := by
  unfold updateInputs
  simp [applyFilterTexts_untouched, parseFilterFields_untouched, applyTxTexts_untouched,
        parseTxBytes_untouched, applyTxInterval_untouched]

theorem updateInputs_sending (s : CanTracerPage) (i : TickInput) :
    (updateInputs s i).sending_frame = i.sending_in := by
  unfold updateInputs
  simp [applyTxInterval_untouched]

theorem updateInputs_mask_filt (s : CanTracerPage) (i : TickInput)
    (h : i.reset_clicked = false) :
    (updateInputs s i).mask = applyField (2 ^ 32) 16 i.mask_str_in s.mask
    ∧ (updateInputs s i).filt = applyField (2 ^ 32) 16 i.filt_str_in s.filt := by
  unfold updateInputs
  simp [applyFilterTexts_untouched, (parseFilterFields_untouched _).2.2.2.2.2.2.2.1,
        applyTxTexts_untouched, parseTxBytes_untouched, applyTxInterval_untouched,
        parseFilterFields_mask, applyFilterTexts_strs, h,
        (applyFilterTexts_untouched s i).2.2.2.2.2.2.2.1,
        (applyFilterTexts_untouched s i).2.2.2.2.2.2.2.2.1]

theorem transmitStep_untouched (s : CanTracerPage) (i : TickInput) :
    (transmitStep s i).1.act_map = s.act_map
    ∧ (transmitStep s i).1.events_draw = s.events_draw
    ∧ (transmitStep s i).1.can_map = s.can_map
    ∧ (transmitStep s i).1.max_y = s.max_y
    ∧ (transmitStep s i).1.channel = s.channel
    ∧ (transmitStep s i).1.mask = s.mask
    ∧ (transmitStep s i).1.filt = s.filt
    ∧ (transmitStep s i).1.tx_can_data = s.tx_can_data := by
  unfold transmitStep
  split
  · split <;> simp
  · simp

theorem transmitStep_frames_of_no_call (s : CanTracerPage) (i : TickInput)
    (h : (transmitStep s i).2.2 = none) : (transmitStep s i).2.1 = [] := by
  unfold transmitStep at h ⊢
  by_cases hs : s.sending_frame = true <;>
    by_cases hlt : s.tx_interval < i.now - s.last_tx_time <;>
      simp [hs, hlt] at h ⊢

theorem receiveFold_untouched (s : CanTracerPage) (tx : List CanFrame) (i : TickInput) :
    (receiveFold s tx i).1.channel = s.channel
    ∧ (receiveFold s tx i).1.mask = s.mask
    ∧ (receiveFold s tx i).1.filt = s.filt
    ∧ (receiveFold s tx i).1.tx_can_data = s.tx_can_data
    ∧ (receiveFold s tx i).1.last_tx_time = s.last_tx_time
    ∧ (receiveFold s tx i).1.sending_frame = s.sending_frame := by
  unfold receiveFold selectRow
  dsimp only
  repeat' split
  all_goals simp_all

theorem receiveFold_act_map (s : CanTracerPage) (tx : List CanFrame) (i : TickInput) :
    (receiveFold s tx i).1.act_map =
      (tx ++ (retainInbound s.mask s.filt i.read_result).1).length :: s.act_map.take 99 := by
  unfold receiveFold selectRow
  dsimp only
  repeat' split
  all_goals simp_all

theorem receiveFold_can_map (s : CanTracerPage) (tx : List CanFrame) (i : TickInput) :
    (receiveFold s tx i).1.can_map =
      (tx ++ (retainInbound s.mask s.filt i.read_result).1).foldl
        (fun m (f : CanFrame) => mapInsert m f.address f) s.can_map := by
  unfold receiveFold selectRow
  dsimp only
  repeat' split
  all_goals simp_all

theorem receiveFold_max_y (s : CanTracerPage) (tx : List CanFrame) (i : TickInput) :
    (receiveFold s tx i).1.max_y =
      (if s.max_y < (tx ++ (retainInbound s.mask s.filt i.read_result).1).length
       then (tx ++ (retainInbound s.mask s.filt i.read_result).1).length else s.max_y) := by
  unfold receiveFold selectRow
  dsimp only
  repeat' split
  all_goals simp_all

theorem receiveFold_events_draw (s : CanTracerPage) (tx : List CanFrame) (i : TickInput) :
    (receiveFold s tx i).1.events_draw =
      (if s.events_draw < 100 then s.events_draw + 1 else s.events_draw) := by
  unfold receiveFold selectRow
  dsimp only
  repeat' split
  all_goals simp_all

theorem receiveFold_snd (s : CanTracerPage) (tx : List CanFrame) (i : TickInput) :
    (receiveFold s tx i).2 = (retainInbound s.mask s.filt i.read_result).2 := by
  unfold receiveFold selectRow
  dsimp only

theorem make_ui_connected (s : CanTracerPage) (i : TickInput)
    (hc : s.channel = true) (hd : i.disconnect_clicked = false) :
    make_ui s i =
      ((receiveFold (transmitStep (updateInputs s i) i).1 (transmitStep (updateInputs s i) i).2.1 i).1,
       ⟨(transmitStep (updateInputs s i) i).2.2,
        (receiveFold (transmitStep (updateInputs s i) i).1 (transmitStep (updateInputs s i) i).2.1 i).2⟩) := by
  unfold make_ui
  rw [hc, hd]
  rfl

theorem make_ui_disconnect (s : CanTracerPage) (i : TickInput)
    (hc : s.channel = true) (hd : i.disconnect_clicked = true) :
    make_ui s i =
      ({ (transmitStep (updateInputs s i) i).1 with channel := false, can_map := [] },
       ⟨(transmitStep (updateInputs s i) i).2.2, none⟩) := by
  unfold make_ui
  rw [hc, hd]
  rfl

theorem make_ui_disconnected_untouched (s : CanTracerPage) (i : TickInput)
    (hc : s.channel = false) :
    (make_ui s i).1.max_y = s.max_y
    ∧ (make_ui s i).1.act_map = s.act_map
    ∧ (make_ui s i).1.events_draw = s.events_draw
    ∧ (make_ui s i).1.can_map = s.can_map
    ∧ (make_ui s i).1.tx_can_data = s.tx_can_data
    ∧ (make_ui s i).2.write_call = none := by
  unfold make_ui
  rw [hc]
  simp only [Bool.false_eq_true, if_false]
  repeat' split
  all_goals exact ⟨rfl, rfl, rfl, rfl, rfl, rfl⟩

/-! ### Claims -/

theorem land_eq_and (a b : Nat) : Nat.land a b = a &&& b := rfl

theorem from_str_radix_empty (bound radix : Nat) : from_str_radix bound radix "" = none := rfl

theorem bool_ne_true_eq_false {b : Bool} (h : ¬ b = true) : b = false := by
  revert h; cases b <;> simp

/-- C1: a frame `f` read from the channel during a tick is retained for
insertion into the frame table iff `(f.address & mask) == filter`; with the
default mask=0 and filter=0 every frame passes. -/
theorem c1_filter_retention (mask filt : Nat) (v : List CanFrame) (f : CanFrame) :
    (f ∈ (retainInbound mask filt (.ok v)).1 ↔ f ∈ v ∧ Nat.land f.address mask = filt)
    ∧ (retainInbound 0 0 (.ok v)).1 = v := by
  constructor
  · simp [retainInbound, passesFilter, List.mem_filter]
  · simp only [retainInbound]
    exact List.filter_eq_self.mpr fun a _ => by
      simp [passesFilter, land_eq_and, Nat.and_zero]

/-- C8: an empty or malformed hex text input leaves the previously accepted
mask/filter value unchanged; only a successfully parsed hex string updates
it.  The last conjunct ties this to the tick: absent a reset click, the
tick's mask and filter are exactly `applyField` of the edited strings. -/
theorem c8_permissive_input :
    (∀ bound radix old, applyField bound radix "" old = old)
    ∧ (∀ bound radix str old, from_str_radix bound radix str = none →
        applyField bound radix str old = old)
    ∧ (∀ bound radix str old v, from_str_radix bound radix str = some v →
        applyField bound radix str old = v)
    ∧ (∀ s i, i.reset_clicked = false →
        (updateInputs s i).mask = applyField (2 ^ 32) 16 i.mask_str_in s.mask
        ∧ (updateInputs s i).filt = applyField (2 ^ 32) 16 i.filt_str_in s.filt) := by
  refine ⟨fun bound radix old => rfl, ?_, ?_, fun s i h => updateInputs_mask_filt s i h⟩
  · intro bound radix str old h
    unfold applyField
    split
    · rfl
    · rw [h]
  · intro bound radix str old v h
    unfold applyField
    split
    · rename_i he
      rw [(String.isEmpty_iff str).mp he, from_str_radix_empty] at h
      cases h
    · rw [h]

theorem c8_witness :
    applyField (2 ^ 32) 16 "" 7 = 7
    ∧ applyField (2 ^ 32) 16 "zz" 7 = 7
    ∧ applyField (2 ^ 32) 16 "1A" 7 = 26
    ∧ (updateInputs c2S c2I).mask = applyField (2 ^ 32) 16 "1" c2S.mask :=
  ⟨c8_permissive_input.1 (2 ^ 32) 16 7,
   c8_permissive_input.2.1 (2 ^ 32) 16 "zz" 7 (by decide),
   c8_permissive_input.2.2.1 (2 ^ 32) 16 "1A" 7 26 (by decide),
   (c8_permissive_input.2.2.2 c2S c2I rfl).1⟩

/-- C10: whenever the transmit guard fires, `last_tx_time` is set to the
current instant even if `write_packets` fails; the failed frame is not
pushed into the tick's frame set while a successful one is. -/
theorem c10_tx_error_still_updates_timer (s : CanTracerPage) (i : TickInput)
    (hs : s.sending_frame = true) (ht : s.tx_interval < i.now - s.last_tx_time) :
    (transmitStep s i).1.last_tx_time = i.now
    ∧ (transmitStep s i).2.2 = some ⟨s.tx_can_data.1, s.tx_can_data.2, false⟩
    ∧ (transmitStep s i).2.1 =
        (if i.write_ok then [⟨s.tx_can_data.1, s.tx_can_data.2, false⟩] else []) := by
  unfold transmitStep
  rw [hs]
  simp [ht]

theorem c10_witness :
    (transmitStep { CanTracerPage.new 0 with sending_frame := true }
        { idleInput with now := 51, write_ok := false }).1.last_tx_time = 51
    ∧ (transmitStep { CanTracerPage.new 0 with sending_frame := true }
        { idleInput with now := 51, write_ok := false }).2.2 = some ⟨1, [0, 0, 0, 0, 0, 0, 0, 0], false⟩
    ∧ (transmitStep { CanTracerPage.new 0 with sending_frame := true }
        { idleInput with now := 51, write_ok := false }).2.1 = [] := by
  have h := c10_tx_error_still_updates_timer
    { CanTracerPage.new 0 with sending_frame := true }
    { idleInput with now := 51, write_ok := false } rfl (by decide)
  exact ⟨h.1, h.2.1, by rw [h.2.2]; rfl⟩

/-- C6 counterexample: with `tx_interval = 50` and exactly 50 ms elapsed
since `last_tx_time`, the elapsed time equals the interval (so the claim
says the frame is written) yet no `write_packets` call is made. -/
theorem c6_counterexample :
    c6I.now - c6S.last_tx_time = 50
    ∧ (make_ui c6S c6I).1.tx_interval = 50
    ∧ (make_ui c6S c6I).1.sending_frame = true
    ∧ (make_ui c6S c6I).2.write_call = none := by decide

/-- C6 amended: while transmission is enabled the transmit step fires iff
strictly more than `tx_interval` ms elapsed since `last_sent`; it never
fires when the elapsed time is less than or equal to the interval. -/
theorem c6_transmit_strict_guard (s : CanTracerPage) (i : TickInput) :
    ((transmitStep s i).2.2 ≠ none ↔ s.sending_frame = true ∧ s.tx_interval < i.now - s.last_tx_time)
    ∧ (i.now - s.last_tx_time ≤ s.tx_interval → (transmitStep s i).2.2 = none) := by
  unfold transmitStep
  by_cases hs : s.sending_frame = true <;>
    by_cases hlt : s.tx_interval < i.now - s.last_tx_time <;>
      simp [hs, hlt] <;> omega

theorem c6_transmit_strict_guard_witness :
    ((transmitStep c6S c6I).2.2 ≠ none ↔ c6S.sending_frame = true ∧ c6S.tx_interval < c6I.now - c6S.last_tx_time)
    ∧ (transmitStep c6S c6I).2.2 = none :=
  ⟨(c6_transmit_strict_guard c6S c6I).1, (c6_transmit_strict_guard c6S c6I).2 (by decide)⟩

/-- C4 counterexample: disconnecting a connected page with a non-trivial
activity buffer leaves the activity buffer (newest count 3) and its
filled-length counter (7) intact — only the frame table is cleared. -/
theorem c4_counterexample :
    (make_ui c4S c4I).1.channel = false
    ∧ (make_ui c4S c4I).1.can_map = []
    ∧ (make_ui c4S c4I).1.act_map.head? = some 3
    ∧ (make_ui c4S c4I).1.events_draw = 7 := by decide

/-- C4 amended: disconnecting while connected makes the session
Disconnected and clears the frame table, but the activity buffer, its
filled-length counter and `max_y` keep their pre-disconnect values. -/
theorem c4_disconnect_clears_only_frame_table (s : CanTracerPage) (i : TickInput)
    (hc : s.channel = true) (hd : i.disconnect_clicked = true) :
    (make_ui s i).1.channel = false
    ∧ (make_ui s i).1.can_map = []
    ∧ (make_ui s i).1.act_map = s.act_map
    ∧ (make_ui s i).1.events_draw = s.events_draw
    ∧ (make_ui s i).1.max_y = s.max_y := by
  rw [make_ui_disconnect s i hc hd]
  obtain ⟨ha, he, -, hm, -, -, -, -⟩ := transmitStep_untouched (updateInputs s i) i
  obtain ⟨ha2, he2, -, hm2, -, -⟩ := updateInputs_untouched s i
  exact ⟨rfl, rfl, by simp [ha, ha2], by simp [he, he2], by simp [hm, hm2]⟩

theorem c4_disconnect_witness :
    (make_ui c4S c4I).1.channel = false
    ∧ (make_ui c4S c4I).1.can_map = []
    ∧ (make_ui c4S c4I).1.act_map = c4S.act_map
    ∧ (make_ui c4S c4I).1.events_draw = c4S.events_draw
    ∧ (make_ui c4S c4I).1.max_y = c4S.max_y :=
  c4_disconnect_clears_only_frame_table c4S c4I rfl rfl

/-- C5 counterexample: after a disconnect tick and a successful reconnect
tick, `max_y` still holds 42 rather than resetting to the initial baseline
10 of a fresh page. -/
theorem c5_counterexample :
    (make_ui (make_ui c5S c5I1).1 c5I2).1.channel = true
    ∧ (make_ui (make_ui c5S c5I1).1 c5I2).1.max_y = 42
    ∧ (CanTracerPage.new 0).max_y = 10 := by decide

/-- C5 amended: `max_y` never decreases on any tick — including disconnect
and reconnect ticks, on which it is left exactly unchanged — so it is never
reset to its baseline for the lifetime of the page. -/
theorem c5_max_y_never_resets (s : CanTracerPage) (i : TickInput) :
    s.max_y ≤ (make_ui s i).1.max_y
    ∧ (s.channel = false → (make_ui s i).1.max_y = s.max_y)
    ∧ (i.disconnect_clicked = true → (make_ui s i).1.max_y = s.max_y) := by
  by_cases hc : s.channel = true
  · by_cases hd : i.disconnect_clicked = true
    · have h1 : (make_ui s i).1.max_y = s.max_y := by
        rw [make_ui_disconnect s i hc hd]
        obtain ⟨-, -, -, hm, -, -, -, -⟩ := transmitStep_untouched (updateInputs s i) i
        obtain ⟨-, -, -, hm2, -, -⟩ := updateInputs_untouched s i
        simp [hm, hm2]
      exact ⟨h1.ge, fun hf => absurd (hf ▸ hc) Bool.false_ne_true, fun _ => h1⟩
    · have hd' : i.disconnect_clicked = false := bool_ne_true_eq_false hd
      have h2 := receiveFold_max_y (transmitStep (updateInputs s i) i).1
        (transmitStep (updateInputs s i) i).2.1 i
      obtain ⟨-, -, -, hm, -, -, -, -⟩ := transmitStep_untouched (updateInputs s i) i
      obtain ⟨-, -, -, hm2, -, -⟩ := updateInputs_untouched s i
      rw [hm, hm2] at h2
      have h3 : (make_ui s i).1.max_y =
          (receiveFold (transmitStep (updateInputs s i) i).1
            (transmitStep (updateInputs s i) i).2.1 i).1.max_y := by
        rw [make_ui_connected s i hc hd']
      rw [h3, h2]
      refine ⟨?_, fun hf => absurd (hf ▸ hc) Bool.false_ne_true, fun hdt => absurd hdt hd⟩
      split <;> omega
  · have hc' : s.channel = false := bool_ne_true_eq_false hc
    have h4 := (make_ui_disconnected_untouched s i hc').1
    exact ⟨h4.ge, fun _ => h4, fun _ => h4⟩

theorem c5_max_y_witness :
    c5S.max_y ≤ (make_ui c5S c5I1).1.max_y
    ∧ (make_ui (make_ui c5S c5I1).1 c5I2).1.max_y = (make_ui c5S c5I1).1.max_y :=
  ⟨(c5_max_y_never_resets c5S c5I1).1,
   (c5_max_y_never_resets (make_ui c5S c5I1).1 c5I2).2.1 (by decide)⟩

/-- C2 counterexample: one frame (address 0) is received but fails the
mask=1/filter=1 test and nothing is transmitted, yet the count pushed onto
the activity buffer is 0, not the raw inbound count 1: the activity graph
reflects the post-filter count, not raw channel load. -/
theorem c2_counterexample :
    c2I.read_result = .ok [⟨0, [1], false⟩]
    ∧ (make_ui c2S c2I).2.write_call = none
    ∧ (make_ui c2S c2I).1.act_map.head? = some 0 :=
  ⟨rfl, by decide, by decide⟩

/-- C2 amended: the count pushed onto the front of the activity buffer is
the number of inbound frames that PASS the filter, plus one for a frame
transmitted this tick — and a transmitted frame is counted only when
`write_packets` succeeded. -/
theorem c2_activity_counts_post_filter (s : CanTracerPage) (i : TickInput) (v : List CanFrame)
    (hc : s.channel = true) (hd : i.disconnect_clicked = false) (hr : i.read_result = .ok v) :
    (make_ui s i).1.act_map.head? =
      some ((transmitStep (updateInputs s i) i).2.1.length
        + (v.filter (passesFilter (updateInputs s i).mask (updateInputs s i).filt)).length)
    ∧ (transmitStep (updateInputs s i) i).2.1.length =
        (if (updateInputs s i).sending_frame
            && decide ((updateInputs s i).tx_interval < i.now - (updateInputs s i).last_tx_time)
            && i.write_ok then 1 else 0) := by
  constructor
  · rw [make_ui_connected s i hc hd]
    dsimp only
    rw [receiveFold_act_map]
    obtain ⟨-, -, -, -, -, hm, hf, -⟩ := transmitStep_untouched (updateInputs s i) i
    rw [hm, hf, hr]
    simp [retainInbound]
  · unfold transmitStep
    by_cases hs : (updateInputs s i).sending_frame <;>
      by_cases hlt : (updateInputs s i).tx_interval < i.now - (updateInputs s i).last_tx_time <;>
        by_cases hw : i.write_ok <;> simp [hs, hlt, hw]

theorem c2_activity_witness :
    (make_ui c2S c2I).1.act_map.head? =
      some ((transmitStep (updateInputs c2S c2I) c2I).2.1.length
        + ([(⟨0, [1], false⟩ : CanFrame)].filter
            (passesFilter (updateInputs c2S c2I).mask (updateInputs c2S c2I).filt)).length) :=
  (c2_activity_counts_post_filter c2S c2I [⟨0, [1], false⟩] rfl rfl rfl).1

/-- C9: when `read_packets` fails, the error is reported, the tick's
inbound contribution is zero (the activity count is just the transmitted
frames, zero when no write happened), the frame table is touched only by a
transmitted frame, and the session stays connected. -/
theorem c9_read_error_recoverable (s : CanTracerPage) (i : TickInput) (e : String)
    (hc : s.channel = true) (hd : i.disconnect_clicked = false) (hr : i.read_result = .error e) :
    (make_ui s i).2.read_error = some e
    ∧ (make_ui s i).1.channel = true
    ∧ (make_ui s i).1.act_map.head? = some (transmitStep (updateInputs s i) i).2.1.length
    ∧ (make_ui s i).1.can_map =
        (transmitStep (updateInputs s i) i).2.1.foldl
          (fun m (f : CanFrame) => mapInsert m f.address f) s.can_map
    ∧ ((transmitStep (updateInputs s i) i).2.2 = none →
        (make_ui s i).1.can_map = s.can_map ∧ (make_ui s i).1.act_map.head? = some 0) := by
  rw [make_ui_connected s i hc hd]
  dsimp only
  have hre : retainInbound (transmitStep (updateInputs s i) i).1.mask
      (transmitStep (updateInputs s i) i).1.filt i.read_result = ([], some e) := by
    rw [hr]; rfl
  refine ⟨?_, ?_, ?_, ?_, ?_⟩
  · rw [receiveFold_snd, hre]
  · rw [(receiveFold_untouched _ _ _).1, (transmitStep_untouched _ _).2.2.2.2.1,
        (updateInputs_untouched _ _).2.2.2.2.1, hc]
  · rw [receiveFold_act_map, hre]
    simp
  · rw [receiveFold_can_map, hre, (transmitStep_untouched _ _).2.2.1,
        (updateInputs_untouched _ _).2.2.1]
    simp
  · intro hn
    have hfr := transmitStep_frames_of_no_call (updateInputs s i) i hn
    constructor
    · rw [receiveFold_can_map, hre, hfr, (transmitStep_untouched _ _).2.2.1,
          (updateInputs_untouched _ _).2.2.1]
      simp [mapInsert]
    · rw [receiveFold_act_map, hre, hfr]
      simp

theorem c9_witness :
    (make_ui { CanTracerPage.new 0 with channel := true } c9I).2.read_error = some "read timeout"
    ∧ (make_ui { CanTracerPage.new 0 with channel := true } c9I).1.channel = true
    ∧ (make_ui { CanTracerPage.new 0 with channel := true } c9I).1.can_map = []
    ∧ (make_ui { CanTracerPage.new 0 with channel := true } c9I).1.act_map.head? = some 0 := by
  have h := c9_read_error_recoverable { CanTracerPage.new 0 with channel := true } c9I
    "read timeout" rfl rfl rfl
  have h5 := h.2.2.2.2 (by decide)
  exact ⟨h.1, h.2.1, h5.1.trans rfl, h5.2⟩

theorem parseTxBytes_payload (s : CanTracerPage) :
    ((parseHexBytes s.tx_data_str = [] ∨ 8 < (parseHexBytes s.tx_data_str).length) →
      (parseTxBytes s).tx_can_data.2 = s.tx_can_data.2)
    ∧ (parseHexBytes s.tx_data_str ≠ [] → (parseHexBytes s.tx_data_str).length ≤ 8 →
      (parseTxBytes s).tx_can_data.2 = parseHexBytes s.tx_data_str) := by
  unfold parseTxBytes
  dsimp only
  constructor
  · intro h
    by_cases he : (parseHexBytes s.tx_data_str).isEmpty = true
    · rw [if_pos he]
    · rw [if_neg he]
      have hlen : 8 < (parseHexBytes s.tx_data_str).length := by
        rcases h with h | h
        · exact absurd (by simp [h]) he
        · exact h
      rw [if_pos hlen]
  · intro h1 h2
    rw [if_neg (by simp [List.isEmpty_iff, h1]), if_neg (by omega)]

theorem updateInputs_payload (s : CanTracerPage) (i : TickInput) :
    ((parseHexBytes i.tx_data_in = [] ∨ 8 < (parseHexBytes i.tx_data_in).length) →
      (updateInputs s i).tx_can_data.2 = s.tx_can_data.2)
    ∧ (parseHexBytes i.tx_data_in ≠ [] → (parseHexBytes i.tx_data_in).length ≤ 8 →
      (updateInputs s i).tx_can_data.2 = parseHexBytes i.tx_data_in) := by
  obtain ⟨-, -, -, -, -, -, -, -, -, hP⟩ :=
    applyTxInterval_untouched (parseTxBytes (applyTxTexts (parseFilterFields (applyFilterTexts s i)) i)) i
  obtain ⟨-, -, -, -, -, -, -, -, -, hA, hB, -⟩ :=
    applyTxTexts_untouched (parseFilterFields (applyFilterTexts s i)) i
  obtain ⟨-, -, -, -, -, -, -, hC, -, -⟩ := parseFilterFields_untouched (applyFilterTexts s i)
  obtain ⟨-, -, -, -, -, -, -, -, -, hD, -, -⟩ := applyFilterTexts_untouched s i
  have hpb := parseTxBytes_payload (applyTxTexts (parseFilterFields (applyFilterTexts s i)) i)
  rw [hB] at hpb
  constructor
  · intro h
    unfold updateInputs
    rw [hP, hpb.1 h, hA, hC, hD]
  · intro h1 h2
    unfold updateInputs
    rw [hP, hpb.2 h1 h2]

theorem updateInputs_payload_bounds (s : CanTracerPage) (i : TickInput)
    (h1 : 1 ≤ s.tx_can_data.2.length) (h8 : s.tx_can_data.2.length ≤ 8) :
    1 ≤ (updateInputs s i).tx_can_data.2.length ∧ (updateInputs s i).tx_can_data.2.length ≤ 8 := by
  by_cases hni : parseHexBytes i.tx_data_in = []
  · rw [(updateInputs_payload s i).1 (Or.inl hni)]
    exact ⟨h1, h8⟩
  · by_cases hlen : 8 < (parseHexBytes i.tx_data_in).length
    · rw [(updateInputs_payload s i).1 (Or.inr hlen)]
      exact ⟨h1, h8⟩
    · rw [(updateInputs_payload s i).2 hni (by omega)]
      have hp := List.length_pos.mpr hni
      omega

theorem transmitStep_write_frame (s : CanTracerPage) (i : TickInput) (f : CanFrame)
    (h : (transmitStep s i).2.2 = some f) : f = ⟨s.tx_can_data.1, s.tx_can_data.2, false⟩ := by
  unfold transmitStep at h
  by_cases hs : s.sending_frame = true <;>
    by_cases hlt : s.tx_interval < i.now - s.last_tx_time <;>
      simp [hs, hlt] at h
  exact h.symm

theorem make_ui_write_call (s : CanTracerPage) (i : TickInput) :
    (make_ui s i).2.write_call =
      (if s.channel then (transmitStep (updateInputs s i) i).2.2 else none) := by
  by_cases hc : s.channel = true
  · by_cases hd : i.disconnect_clicked = true
    · rw [make_ui_disconnect s i hc hd, hc, if_pos rfl]
    · rw [make_ui_connected s i hc (bool_ne_true_eq_false hd), hc, if_pos rfl]
  · have hc' := bool_ne_true_eq_false hc
    rw [(make_ui_disconnected_untouched s i hc').2.2.2.2.2, hc', if_neg (by simp)]

theorem make_ui_tx_can_data (s : CanTracerPage) (i : TickInput) :
    (make_ui s i).1.tx_can_data =
      (if s.channel then (updateInputs s i).tx_can_data else s.tx_can_data) := by
  by_cases hc : s.channel = true
  · rw [hc, if_pos rfl]
    by_cases hd : i.disconnect_clicked = true
    · rw [make_ui_disconnect s i hc hd]
      exact (transmitStep_untouched _ _).2.2.2.2.2.2.2
    · rw [make_ui_connected s i hc (bool_ne_true_eq_false hd)]
      exact ((receiveFold_untouched _ _ _).2.2.2.1).trans (transmitStep_untouched _ _).2.2.2.2.2.2.2
  · have hc' := bool_ne_true_eq_false hc
    rw [(make_ui_disconnected_untouched s i hc').2.2.2.2.1, hc', if_neg (by simp)]

/-- C7: a transmit payload that parses to 0 bytes or more than 8 bytes is
rejected before any write: it never replaces the stored payload, the stored
payload always keeps between 1 and 8 bytes (starting from the page's
initial 8-byte payload), and every frame handed to `write_packets` carries
a payload of length 1 to 8. -/
theorem c7_payload_bounds :
    (∀ t, 1 ≤ (CanTracerPage.new t).tx_can_data.2.length
      ∧ (CanTracerPage.new t).tx_can_data.2.length ≤ 8)
    ∧ (∀ s i, (parseHexBytes i.tx_data_in = [] ∨ 8 < (parseHexBytes i.tx_data_in).length) →
        (updateInputs s i).tx_can_data.2 = s.tx_can_data.2)
    ∧ (∀ (s : CanTracerPage) (i : TickInput),
        1 ≤ s.tx_can_data.2.length → s.tx_can_data.2.length ≤ 8 →
        (1 ≤ (make_ui s i).1.tx_can_data.2.length ∧ (make_ui s i).1.tx_can_data.2.length ≤ 8)
        ∧ ∀ f, (make_ui s i).2.write_call = some f →
            1 ≤ f.data.length ∧ f.data.length ≤ 8) := by
  refine ⟨fun t => ⟨by simp [CanTracerPage.new], by simp [CanTracerPage.new]⟩,
    fun s i h => (updateInputs_payload s i).1 h, ?_⟩
  intro s i h1 h8
  constructor
  · rw [make_ui_tx_can_data]
    by_cases hc : s.channel = true
    · rw [hc, if_pos rfl]
      exact updateInputs_payload_bounds s i h1 h8
    · rw [bool_ne_true_eq_false hc, if_neg (by simp)]
      exact ⟨h1, h8⟩
  · intro f hf
    rw [make_ui_write_call] at hf
    by_cases hc : s.channel = true
    · rw [hc, if_pos rfl] at hf
      have hfe := transmitStep_write_frame (updateInputs s i) i f hf
      rw [hfe]
      exact updateInputs_payload_bounds s i h1 h8
    · rw [bool_ne_true_eq_false hc, if_neg (by simp)] at hf
      cases hf

theorem c7_payload_witness :
    (1 ≤ (CanTracerPage.new 0).tx_can_data.2.length ∧ (CanTracerPage.new 0).tx_can_data.2.length ≤ 8)
    ∧ (updateInputs c6S { idleInput with tx_data_in := "01 02 03 04 05 06 07 08 09" }).tx_can_data.2
        = c6S.tx_can_data.2
    ∧ (updateInputs c6S { idleInput with tx_data_in := "zz" }).tx_can_data.2 = c6S.tx_can_data.2
    ∧ (1 ≤ (make_ui c6S c6I).1.tx_can_data.2.length ∧ (make_ui c6S c6I).1.tx_can_data.2.length ≤ 8) :=
  ⟨c7_payload_bounds.1 0,
   c7_payload_bounds.2.1 c6S { idleInput with tx_data_in := "01 02 03 04 05 06 07 08 09" }
     (Or.inr (by decide)),
   c7_payload_bounds.2.1 c6S { idleInput with tx_data_in := "zz" } (Or.inl (by decide)),
   (c7_payload_bounds.2.2 c6S c6I (by decide) (by decide)).1⟩

/-! ### Hex format/parse roundtrip, for the select-row claim -/

theorem digitVal_hexDigitChar : ∀ d, d < 16 → digitVal 16 (hexDigitChar d) = some d := by decide

theorem hexDigitChar_not_sign : ∀ d, d < 16 → hexDigitChar d ≠ '+' ∧ hexDigitChar d ≠ '-' := by
  decide

theorem parseDigitsPos_nil (bound radix acc : Nat) :
    parseDigitsPos bound radix [] acc = some acc := rfl

theorem parseDigitsPos_cons (bound radix : Nat) (c : Char) (cs : List Char) (acc : Nat) :
    parseDigitsPos bound radix (c :: cs) acc =
      (match digitVal radix c with
       | none => none
       | some d =>
         if acc * radix + d < bound then parseDigitsPos bound radix cs (acc * radix + d)
         else none) := rfl

theorem parseDigitsPos_append (bound radix : Nat) (xs ys : List Char) (acc : Nat) :
    parseDigitsPos bound radix (xs ++ ys) acc =
      (parseDigitsPos bound radix xs acc).bind (fun a => parseDigitsPos bound radix ys a) := by
  induction xs generalizing acc with
  | nil => rfl
  | cons c cs ih =>
    rw [List.cons_append, parseDigitsPos_cons, parseDigitsPos_cons]
    cases h : digitVal radix c with
    | none => rfl
    | some d =>
      dsimp only
      by_cases hlt : acc * radix + d < bound
      · rw [if_pos hlt, if_pos hlt]
        exact ih _
      · rw [if_neg hlt, if_neg hlt]
        rfl

theorem hexCharsAux_mem (fuel : Nat) :
    ∀ n, n < fuel → ∀ c ∈ hexCharsAux fuel n, ∃ d, d < 16 ∧ c = hexDigitChar d := by
  induction fuel with
  | zero => omega
  | succ fuel ih =>
    intro n hn c hc
    unfold hexCharsAux at hc
    split at hc
    · rename_i h16
      rw [List.mem_singleton] at hc
      exact ⟨n, h16, hc⟩
    · rename_i h16
      rw [List.mem_append] at hc
      rcases hc with hc | hc
      · exact ih (n / 16) (by omega) c hc
      · rw [List.mem_singleton] at hc
        exact ⟨n % 16, by omega, hc⟩

theorem hexCharsAux_ne_nil (fuel n : Nat) (h : n < fuel) : hexCharsAux fuel n ≠ [] := by
  cases fuel with
  | zero => omega
  | succ fuel =>
    unfold hexCharsAux
    split
    · simp
    · simp

theorem parseDigitsPos_hexCharsAux (bound : Nat) (fuel : Nat) :
    ∀ n, n < fuel → ∀ acc, acc * 16 ^ (hexCharsAux fuel n).length + n < bound →
      parseDigitsPos bound 16 (hexCharsAux fuel n) acc =
        some (acc * 16 ^ (hexCharsAux fuel n).length + n) := by
  induction fuel with
  | zero => omega
  | succ fuel ih =>
    intro n hn acc hb
    by_cases h16 : n < 16
    · rw [show hexCharsAux (fuel + 1) n = [hexDigitChar n] from by
        unfold hexCharsAux; rw [if_pos h16]] at hb ⊢
      rw [List.length_singleton, pow_one] at hb ⊢
      rw [parseDigitsPos_cons, digitVal_hexDigitChar n h16]
      dsimp only
      rw [if_pos hb, parseDigitsPos_nil]
    · have heq : hexCharsAux (fuel + 1) n =
          hexCharsAux fuel (n / 16) ++ [hexDigitChar (n % 16)] := by
        conv_lhs => unfold hexCharsAux
        rw [if_neg h16]
      rw [heq] at hb ⊢
      have hlt : n / 16 < fuel := by omega
      rw [List.length_append, List.length_singleton, pow_succ] at hb ⊢
      obtain ⟨P, hP⟩ : ∃ P, 16 ^ (hexCharsAux fuel (n / 16)).length = P := ⟨_, rfl⟩
      rw [hP] at hb ⊢
      have hassoc : acc * (P * 16) = acc * P * 16 := by ring
      have hbpre : acc * P + n / 16 < bound := by omega
      rw [parseDigitsPos_append]
      have hpre := ih (n / 16) hlt acc (by rw [hP]; exact hbpre)
      rw [hP] at hpre
      rw [hpre]
      dsimp only [Option.bind]
      rw [parseDigitsPos_cons, digitVal_hexDigitChar (n % 16) (by omega)]
      dsimp only
      have hassoc2 : (acc * P + n / 16) * 16 = acc * P * 16 + n / 16 * 16 := by ring
      rw [if_pos (by omega), parseDigitsPos_nil]
      congr 1
      omega

theorem parseDigitsPos_zeros (bound : Nat) (k : Nat) (ds : List Char) (hb : 0 < bound) :
    parseDigitsPos bound 16 (List.replicate k '0' ++ ds) 0 = parseDigitsPos bound 16 ds 0 := by
  induction k with
  | zero => rfl
  | succ k ih =>
    rw [List.replicate_succ, List.cons_append, parseDigitsPos_cons,
        show digitVal 16 '0' = some 0 from by decide]
    dsimp only
    rw [if_pos (by omega)]
    simpa using ih

theorem stringToList_mk (l : List Char) : (String.mk l).toList = l := rfl

theorem from_str_radix_formatHex4 (A : Nat) (hA : A < 2 ^ 32) :
    from_str_radix (2 ^ 32) 16 (formatHex4 A) = some A := by
  have hval : parseDigitsPos (2 ^ 32) 16 (hexChars A) 0 = some A := by
    unfold hexChars
    rw [parseDigitsPos_hexCharsAux (2 ^ 32) (A + 1) A (Nat.lt_succ_self A) 0 (by simpa using hA)]
    simp
  have hfull : parseDigitsPos (2 ^ 32) 16
      (List.replicate (4 - (hexChars A).length) '0' ++ hexChars A) 0 = some A := by
    rw [parseDigitsPos_zeros (2 ^ 32) _ _ (by norm_num), hval]
  have hmem : ∀ c ∈ List.replicate (4 - (hexChars A).length) '0' ++ hexChars A,
      c ≠ '+' ∧ c ≠ '-' := by
    intro c hc
    rw [List.mem_append] at hc
    rcases hc with hc | hc
    · rw [List.eq_of_mem_replicate hc]
      exact ⟨by decide, by decide⟩
    · obtain ⟨d, hd, rfl⟩ := hexCharsAux_mem (A + 1) A (Nat.lt_succ_self A) c hc
      exact hexDigitChar_not_sign d hd
  rcases hl : List.replicate (4 - (hexChars A).length) '0' ++ hexChars A with _ | ⟨c, cs⟩
  · exact absurd (List.append_eq_nil.mp hl).2 (hexCharsAux_ne_nil (A + 1) A (Nat.lt_succ_self A))
  · have hS : formatHex4 A = String.mk (c :: cs) := by
      unfold formatHex4
      dsimp only
      rw [hl]
    have hsign := hmem c (by rw [hl]; exact List.mem_cons_self c cs)
    rw [hS]
    unfold from_str_radix
    rw [stringToList_mk]
    dsimp only
    rw [if_neg hsign.1, if_neg hsign.2, ← hl]
    exact hfull

theorem formatHex4_isEmpty_false (A : Nat) : (formatHex4 A).isEmpty = false := by
  rw [Bool.eq_false_iff]
  intro h
  have h2 := congrArg String.data ((String.isEmpty_iff _).mp h)
  unfold formatHex4 at h2
  dsimp only at h2
  exact absurd (List.append_eq_nil.mp h2).2 (hexCharsAux_ne_nil (A + 1) A (Nat.lt_succ_self A))

/-- C3 counterexample: clicking the row of address 5 sets the mask string to
"FFFF", so the next tick parses mask 0xFFFF — not 0xFFFFFFFF — and a frame
with address 0x10005 (≠ 5) then passes the filter predicate. -/
theorem c3_counterexample :
    (make_ui c3S c3I1).1.mask_str = "FFFF"
    ∧ (make_ui c3S c3I1).1.filt_str = "0005"
    ∧ (make_ui (make_ui c3S c3I1).1 c3I2).1.mask = 0xFFFF
    ∧ (make_ui (make_ui c3S c3I1).1 c3I2).1.mask ≠ 0xFFFFFFFF
    ∧ (make_ui (make_ui c3S c3I1).1 c3I2).1.filt = 5
    ∧ passesFilter 0xFFFF 5 ⟨0x10005, [], false⟩ = true := by decide

/-- C3 amended: the select-row action for row address `A` sets the mask
string to "FFFF" and the filter string to `A` in 4-digit hex, which parse
back to mask 0xFFFF (16 one bits, not 32) and filter `A` (for `A` in the
16-bit range); the filter predicate then accepts exactly the frames whose
address is congruent to `A` modulo 2^16 — frames whose low 16 bits equal
`A`, not only the address exactly `A`. -/
theorem c3_select_row_16bit_mask (s : CanTracerPage) (A : Nat) (hA : A < 2 ^ 16)
    (f : CanFrame) (old oldF : Nat) :
    (selectRow s A).mask_str = "FFFF"
    ∧ (selectRow s A).filt_str = formatHex4 A
    ∧ applyField (2 ^ 32) 16 (selectRow s A).mask_str old = 0xFFFF
    ∧ applyField (2 ^ 32) 16 (selectRow s A).filt_str oldF = A
    ∧ (passesFilter 0xFFFF A f = true ↔ f.address % 2 ^ 16 = A) := by
  refine ⟨rfl, rfl, ?_, ?_, ?_⟩
  · show applyField (2 ^ 32) 16 "FFFF" old = 0xFFFF
    unfold applyField
    rw [if_neg (by decide), show from_str_radix (2 ^ 32) 16 "FFFF" = some 0xFFFF from by decide]
  · show applyField (2 ^ 32) 16 (formatHex4 A) oldF = A
    unfold applyField
    rw [formatHex4_isEmpty_false]
    rw [if_neg (by simp)]
    rw [from_str_radix_formatHex4 A (lt_trans hA (by norm_num))]
  · unfold passesFilter
    have h1 : Nat.land f.address 0xFFFF = f.address % 2 ^ 16 := by
      have h2 : f.address &&& (2 ^ 16 - 1) = f.address % 2 ^ 16 :=
        Nat.and_pow_two_sub_one_eq_mod f.address 16
      calc Nat.land f.address 0xFFFF = f.address &&& (2 ^ 16 - 1) := by norm_num [land_eq_and]
        _ = f.address % 2 ^ 16 := h2
    rw [h1]
    simp

theorem c3_select_row_witness :
    (selectRow c3S 5).mask_str = "FFFF"
    ∧ (selectRow c3S 5).filt_str = formatHex4 5
    ∧ applyField (2 ^ 32) 16 (selectRow c3S 5).mask_str 0 = 0xFFFF
    ∧ applyField (2 ^ 32) 16 (selectRow c3S 5).filt_str 0 = 5
    ∧ (passesFilter 0xFFFF 5 ⟨5, [1], false⟩ = true ↔
        (⟨5, [1], false⟩ : CanFrame).address % 2 ^ 16 = 5) :=
  c3_select_row_16bit_mask c3S 5 (by norm_num) ⟨5, [1], false⟩ 0 0
